import Mathlib

/-!
Shallow embedding of `pkg/mounter/safe_mounter_windows.go` from the
csi-driver-smb repository.

Modelling choices:
* Go strings are Lean `String`s; where Go's `strings` package functions are
  needed they are re-implemented on the underlying character list
  (`String.data`) so that all definitions are executable and easy to reason
  about.  Each such helper's doc comment names the Go call it translates.
* The two csi-proxy clients (`FsClient`, `SMBClient`), the DNS resolver
  `net.ResolveIPAddr` and the library function `filepath.Dir` are external
  dependencies of this file's code; they are modelled as an explicit
  environment (`Env`) of response functions.  Every operation of the mounter
  returns, next to its Go return value, the list of helper-service requests it
  issued, in order, so that frame conditions ("no request of kind X is
  issued") are statable.
* Go's `error` is `GoError`: either an error built by `fmt.Errorf` carrying
  its message, or the distinguished `os.ErrNotExist` sentinel returned by
  `IsLikelyNotMountPoint`.  A Go `(v, error)` pair with the convention that
  exactly one side is meaningful is `Except GoError v`; a Go pair that can
  carry both a value and a nil/non-nil error is `v × Option GoError`.
-/

/-- One Go `error` value: either an error produced by `fmt.Errorf` with the
given message, or the `os.ErrNotExist` sentinel. -/
inductive GoError
  | mk (msg : String)
  | errNotExist
deriving DecidableEq

/-- Go `%v` rendering of an error (its `Error()` string), used when one error
message wraps another via `fmt.Errorf(..., err)`. -/
def errMsg : GoError → String
  | GoError.mk m => m
  | GoError.errNotExist => "file does not exist"

/-- The character translation underlying `strings.Replace(s, "/", "\\", -1)`:
a forward slash becomes a backslash, everything else is unchanged. -/
def slashToBackslash (c : Char) : Char := if c = '/' then '\\' else c

/-- `strings.Replace(s, "/", "\\", -1)`: replace every forward slash by a
backslash (used at lines 48 and 88 of the source). -/
def replaceAllSlash (s : String) : String :=
  String.mk (s.data.map slashToBackslash)

/-- `strings.HasPrefix` on the underlying character lists: does the first
list start with the second? -/
def listStartsWith : List Char → List Char → Bool
  | _, [] => true
  | [], _ :: _ => false
  | c :: s, d :: p => c == d && listStartsWith s p

/-- `strings.HasSuffix(s, pat)`. -/
def hasSuffix (s pat : String) : Bool :=
  listStartsWith s.data.reverse pat.data.reverse

/-- `strings.Replace(s, pat, rep, 1)` on character lists: replace the first
occurrence of `pat` (only) by `rep`. -/
def replaceFirstList : List Char → List Char → List Char → List Char
  | [], pat, rep => if pat = [] then rep else []
  | c :: rest, pat, rep =>
    if listStartsWith (c :: rest) pat then rep ++ (c :: rest).drop pat.length
    else c :: replaceFirstList rest pat rep

/-- `strings.Replace(s, pat, rep, 1)` (source line 84). -/
def replaceFirst (s pat rep : String) : String :=
  String.mk (replaceFirstList s.data pat.data rep.data)

/-- The splitting underlying `strings.FieldsFunc`: cut the character list at
every separator character, keeping empty pieces. -/
def splitOnP (f : Char → Bool) : List Char → List (List Char)
  | [] => [[]]
  | c :: rest =>
    if f c then [] :: splitOnP f rest
    else match splitOnP f rest with
      | [] => [[c]]
      | g :: gs => (c :: g) :: gs

/-- `strings.FieldsFunc(s, f)`: the maximal runs of characters not satisfying
`f`; empty fields are dropped (source line 75). -/
def fieldsFunc (f : Char → Bool) (s : String) : List String :=
  ((splitOnP f s.data).filter (fun g => !g.isEmpty)).map String.mk

/-- Source function `Split` (lines 124-126): the separators used to tokenize
the SMB source address. -/
def Split (r : Char) : Bool := r == ' ' || r == '/'

/-- Source function `normalizeWindowsPath` (lines 47-53). -/
def normalizeWindowsPath (path : String) : String :=
  let normalizedPath := replaceAllSlash path
  if listStartsWith normalizedPath.data ['\\'] then "c:" ++ normalizedPath
  else normalizedPath

/-- `fs.PathContext` of the csi-proxy filesystem API. -/
inductive PathContext
  | POD
  | PLUGIN
deriving DecidableEq

/-- `fs.PathExistsRequest`. -/
structure PathExistsRequest where
  Path : String
deriving DecidableEq

/-- `fs.MkdirRequest`. -/
structure MkdirRequest where
  Path : String
  Context : PathContext
deriving DecidableEq

/-- `fs.RmdirRequest`. -/
structure RmdirRequest where
  Path : String
  Context : PathContext
  Force : Bool
deriving DecidableEq

/-- `fs.IsMountPointRequest`. -/
structure IsMountPointRequest where
  Path : String
deriving DecidableEq

/-- `fs.LinkPathRequest`. -/
structure LinkPathRequest where
  SourcePath : String
  TargetPath : String
deriving DecidableEq

/-- `smb.NewSmbGlobalMappingRequest`. -/
structure NewSmbGlobalMappingRequest where
  LocalPath : String
  RemotePath : String
  Username : String
  Password : String
deriving DecidableEq

/-- `smb.RemoveSmbGlobalMappingRequest` — part of the csi-proxy SMB API; the
source file never issues it, which is what claim C7 is about. -/
structure RemoveSmbGlobalMappingRequest where
  RemotePath : String
deriving DecidableEq

/-- One request sent to the privileged csi-proxy helper service. -/
inductive HelperRequest
  | pathExists (r : PathExistsRequest)
  | mkdir (r : MkdirRequest)
  | rmdir (r : RmdirRequest)
  | isMountPoint (r : IsMountPointRequest)
  | linkPath (r : LinkPathRequest)
  | newSmbGlobalMapping (r : NewSmbGlobalMappingRequest)
  | removeSmbGlobalMapping (r : RemoveSmbGlobalMappingRequest)
deriving DecidableEq

/-- The helper service's response behaviour: one response function per
request shape the mounter can issue (`FsClient` and `SMBClient` combined). -/
structure HelperBehavior where
  pathExists : PathExistsRequest → Except GoError Bool
  mkdir : MkdirRequest → Except GoError Unit
  rmdir : RmdirRequest → Except GoError Unit
  isMountPoint : IsMountPointRequest → Except GoError Bool
  linkPath : LinkPathRequest → Except GoError Unit
  newSmbGlobalMapping : NewSmbGlobalMappingRequest → Except GoError Unit

/-- The external world a `CSIProxyMounter` call runs against: the helper
service, `net.ResolveIPAddr("ip4", name)` (returning `ip.String()` on
success), and `filepath.Dir`. -/
structure Env where
  helper : HelperBehavior
  resolveIPAddr : String → Except GoError String
  filepathDir : String → String

/-- Source method `ExistsPath` (lines 221-231): ask the helper whether the
normalized path exists. -/
def ExistsPath (env : Env) (path : String) :
    Except GoError Bool × List HelperRequest :=
  let req : PathExistsRequest := ⟨normalizeWindowsPath path⟩
  (env.helper.pathExists req, [HelperRequest.pathExists req])

/-- Source method `MakeDir` (lines 206-218): plugin-scoped Mkdir of the
normalized path. -/
def MakeDir (env : Env) (path : String) :
    Except GoError Unit × List HelperRequest :=
  let req : MkdirRequest := ⟨normalizeWindowsPath path, PathContext.PLUGIN⟩
  (env.helper.mkdir req, [HelperRequest.mkdir req])

/-- Source method `Rmdir` (lines 132-144): pod-scoped, forced Rmdir of the
normalized path. -/
def Rmdir (env : Env) (path : String) :
    Except GoError Unit × List HelperRequest :=
  let req : RmdirRequest := ⟨normalizeWindowsPath path, PathContext.POD, true⟩
  (env.helper.rmdir req, [HelperRequest.rmdir req])

/-- Source method `SMBUnmount` (lines 101-106): delegates to `Rmdir`. -/
def SMBUnmount (env : Env) (target : String) :
    Except GoError Unit × List HelperRequest :=
  Rmdir env target

/-- Source method `Unmount` (lines 147-150): delegates to `Rmdir`. -/
def Unmount (env : Env) (target : String) :
    Except GoError Unit × List HelperRequest :=
  Rmdir env target

/-- Source method `Mount` (lines 109-122): a LinkPath request on the two
normalized paths. -/
def Mount (env : Env) (source target fstype : String) :
    Except GoError Unit × List HelperRequest :=
  let req : LinkPathRequest := ⟨normalizeWindowsPath source, normalizeWindowsPath target⟩
  match env.helper.linkPath req with
  | Except.error err => (Except.error err, [HelperRequest.linkPath req])
  | Except.ok _ => (Except.ok (), [HelperRequest.linkPath req])

/-- Lines 75-86 of `SMBMount`: tokenize the source with `Split`; when there
is a first token and it ends in "svc.cluster.local", try IPv4 resolution; on
success substitute the address for the first occurrence of the hostname
(`strings.Replace` with count 1), on failure keep the source unchanged. -/
def smbMountSource (env : Env) (source : String) : String :=
  let parts := fieldsFunc Split source
  if parts.length != 0 && hasSuffix (parts.getD 0 "") "svc.cluster.local" then
    match env.resolveIPAddr (parts.getD 0 "") with
    | Except.error _ => source
    | Except.ok ip => replaceFirst source (parts.getD 0 "") ip
  else source

/-- Lines 88-98 of `SMBMount`: slash-convert the (possibly resolved) source
and issue the NewSmbGlobalMapping request; `trace` is the list of helper
requests issued by the earlier steps. -/
def smbMountMapping (env : Env) (source target : String)
    (mountOptions sensitiveMountOptions : List String)
    (trace : List HelperRequest) : Except GoError Unit × List HelperRequest :=
  let source2 := replaceAllSlash (smbMountSource env source)
  let req : NewSmbGlobalMappingRequest :=
    ⟨normalizeWindowsPath target, source2,
     mountOptions.getD 0 "", sensitiveMountOptions.getD 0 ""⟩
  match env.helper.newSmbGlobalMapping req with
  | Except.error err =>
      (Except.error (GoError.mk ("smb mapping failed with error: " ++ errMsg err)),
       trace ++ [HelperRequest.newSmbGlobalMapping req])
  | Except.ok _ => (Except.ok (), trace ++ [HelperRequest.newSmbGlobalMapping req])

/-- Source method `SMBMount` (lines 55-99). -/
def SMBMount (env : Env) (source target fsType : String)
    (mountOptions sensitiveMountOptions : List String) :
    Except GoError Unit × List HelperRequest :=
  if mountOptions.length == 0 || sensitiveMountOptions.length == 0 then
    (Except.error (GoError.mk ("empty mountOptions(len: " ++ toString mountOptions.length ++
       ") or sensitiveMountOptions(len: " ++ toString sensitiveMountOptions.length ++
       ") is not allowed")), [])
  else
    let parentDir := env.filepathDir target
    match ExistsPath env parentDir with
    | (Except.error err, trace1) =>
        (Except.error (GoError.mk ("parent dir: " ++ parentDir ++
           " exist check failed with err: " ++ errMsg err)), trace1)
    | (Except.ok parentExists, trace1) =>
        if !parentExists then
          match MakeDir env parentDir with
          | (Except.error err, trace2) =>
              (Except.error (GoError.mk ("create of parent dir: " ++ parentDir ++
                 " dailed with error: " ++ errMsg err)), trace1 ++ trace2)
          | (Except.ok _, trace2) =>
              smbMountMapping env source target mountOptions sensitiveMountOptions (trace1 ++ trace2)
        else smbMountMapping env source target mountOptions sensitiveMountOptions trace1

/-- Source method `IsLikelyNotMountPoint` (lines 163-181). -/
def IsLikelyNotMountPoint (env : Env) (path : String) :
    (Bool × Option GoError) × List HelperRequest :=
  match ExistsPath env path with
  | (Except.error err, trace1) => ((false, some err), trace1)
  | (Except.ok isExists, trace1) =>
      if !isExists then ((true, some GoError.errNotExist), trace1)
      else
        let req : IsMountPointRequest := ⟨normalizeWindowsPath path⟩
        match env.helper.isMountPoint req with
        | Except.error err => ((false, some err), trace1 ++ [HelperRequest.isMountPoint req])
        | Except.ok b => ((!b, none), trace1 ++ [HelperRequest.isMountPoint req])

/-- `mount.MountPoint`, reduced to the one field the source reads. -/
structure MountPoint where
  Path : String
deriving DecidableEq

/-- Abbreviation so that list types can be written inside the
`CSIProxyMounter` namespace, where `List` names the mounter's own unsupported
`List` operation. -/
abbrev MountPointList := List MountPoint

/-- Abbreviation for a list of Go strings, see `MountPointList`. -/
abbrev StringList := List String

namespace CSIProxyMounter

/-- Source method `List` (lines 152-154). -/
def List : MountPointList × Option GoError :=
  ([], some (GoError.mk "List not implemented for CSIProxyMounter"))

/-- Source method `PathIsDevice` (lines 183-185). -/
def PathIsDevice (pathname : String) : Bool × Option GoError :=
  (false, some (GoError.mk "PathIsDevice not implemented for CSIProxyMounter"))

/-- Source method `DeviceOpened` (lines 187-189). -/
def DeviceOpened (pathname : String) : Bool × Option GoError :=
  (false, some (GoError.mk "DeviceOpened not implemented for CSIProxyMounter"))

/-- Source method `GetDeviceNameFromMount` (lines 191-193). -/
def GetDeviceNameFromMount (mountPath pluginMountDir : String) : String × Option GoError :=
  ("", some (GoError.mk "GetDeviceNameFromMount not implemented for CSIProxyMounter"))

/-- Source method `MakeRShared` (lines 195-197). -/
def MakeRShared (path : String) : Option GoError :=
  some (GoError.mk "MakeRShared not implemented for CSIProxyMounter")

/-- Source method `MakeFile` (lines 199-201). -/
def MakeFile (pathname : String) : Option GoError :=
  some (GoError.mk "MakeFile not implemented for CSIProxyMounter")

/-- Source method `EvalHostSymlinks` (lines 233-235). -/
def EvalHostSymlinks (pathname : String) : String × Option GoError :=
  ("", some (GoError.mk "EvalHostSymlinks not implemented for CSIProxyMounter"))

/-- Source method `GetMountRefs` (lines 237-239). -/
def GetMountRefs (pathname : String) : StringList × Option GoError :=
  ([], some (GoError.mk "GetMountRefs not implemented for CSIProxyMounter"))

/-- Source method `GetFSGroup` (lines 241-243). -/
def GetFSGroup (pathname : String) : Int × Option GoError :=
  (-1, some (GoError.mk "GetFSGroup not implemented for CSIProxyMounter"))

/-- Source method `GetSELinuxSupport` (lines 245-247). -/
def GetSELinuxSupport (pathname : String) : Bool × Option GoError :=
  (false, some (GoError.mk "GetSELinuxSupport not implemented for CSIProxyMounter"))

/-- Source method `GetMode` (lines 249-251); `os.FileMode` is a machine word,
modelled as a natural number. -/
def GetMode (pathname : String) : Nat × Option GoError :=
  (0, some (GoError.mk "GetMode not implemented for CSIProxyMounter"))

/-- Source method `MountSensitive` (lines 253-255). -/
def MountSensitive (source target fstype : String)
    (options sensitiveOptions : StringList) : Option GoError :=
  some (GoError.mk "MountSensitive not implemented for CSIProxyMounter")

/-- Source method `MountSensitiveWithoutSystemd` (lines 257-259). -/
def MountSensitiveWithoutSystemd (source target fstype : String)
    (options sensitiveOptions : StringList) : Option GoError :=
  some (GoError.mk "MountSensitiveWithoutSystemd not implemented for CSIProxyMounter")

end CSIProxyMounter

/-- Substring test (used only to state that an occurrence of the hostname
survives in a transformed source). -/
def containsSubList : List Char → List Char → Bool
  | [], pat => listStartsWith [] pat
  | c :: rest, pat => listStartsWith (c :: rest) pat || containsSubList rest pat

/-- Does `s` contain `pat` as a contiguous substring? -/
def containsSub (s pat : String) : Bool := containsSubList s.data pat.data

/-- A helper behaviour where every request succeeds: paths exist, nothing is
a mount point, every mutation is accepted. -/
def helperAllOk : HelperBehavior where
  pathExists := fun _ => Except.ok true
  mkdir := fun _ => Except.ok ()
  rmdir := fun _ => Except.ok ()
  isMountPoint := fun _ => Except.ok false
  linkPath := fun _ => Except.ok ()
  newSmbGlobalMapping := fun _ => Except.ok ()

/-- Like `helperAllOk` but no path exists. -/
def helperNotExists : HelperBehavior :=
  { helperAllOk with pathExists := fun _ => Except.ok false }

/-- Like `helperAllOk` but every path is a mount point. -/
def helperMounted : HelperBehavior :=
  { helperAllOk with isMountPoint := fun _ => Except.ok true }

/-- A concrete environment around a helper behaviour: DNS resolution always
fails, the parent of every path is "/mnt". -/
def mkEnv (h : HelperBehavior) : Env :=
  ⟨h, fun _ => Except.error (GoError.mk "lookup failed"), fun _ => "/mnt"⟩

/-- A concrete environment whose DNS resolution always succeeds with
address 1.2.3.4. -/
def envResolves : Env :=
  ⟨helperAllOk, fun _ => Except.ok "1.2.3.4", fun _ => "/var/lib/kubelet"⟩


/-! ## Helper lemmas (shared) -/

theorem slashToBackslash_ne_slash (c : Char) : slashToBackslash c ≠ '/' := by
  by_cases h : c = '/' <;> simp [slashToBackslash, h]

theorem not_mem_map_slashToBackslash (l : List Char) :
    '/' ∉ l.map slashToBackslash := by
  simp only [List.mem_map, not_exists, not_and]
  intro c _ h
  exact slashToBackslash_ne_slash c h

theorem map_slashToBackslash_id (l : List Char) (h : '/' ∉ l) :
    l.map slashToBackslash = l := by
  induction l with
  | nil => rfl
  | cons c rest ih =>
    rw [List.mem_cons, not_or] at h
    have hc : c ≠ '/' := fun hh => h.1 hh.symm
    simp [slashToBackslash, hc, ih h.2]

theorem normalizeWindowsPath_data (p : String) :
    (normalizeWindowsPath p).data =
      if listStartsWith (p.data.map slashToBackslash) ['\\'] = true
      then 'c' :: ':' :: p.data.map slashToBackslash
      else p.data.map slashToBackslash := by
  by_cases hb : listStartsWith (p.data.map slashToBackslash) ['\\'] = true
  · rw [if_pos hb]
    unfold normalizeWindowsPath replaceAllSlash
    simp only [hb, if_pos]
    rfl
  · rw [if_neg hb]
    unfold normalizeWindowsPath replaceAllSlash
    simp only [hb, if_neg]
    rfl

theorem normalizeWindowsPath_slash_not_mem (p : String) :
    '/' ∉ (normalizeWindowsPath p).data := by
  rw [normalizeWindowsPath_data]
  split
  · intro h
    rcases List.mem_cons.mp h with h | h
    · exact absurd h (by decide)
    rcases List.mem_cons.mp h with h | h
    · exact absurd h (by decide)
    · exact not_mem_map_slashToBackslash p.data h
  · exact not_mem_map_slashToBackslash p.data

theorem replaceAllSlash_normalize_fixed (p : String) :
    replaceAllSlash (normalizeWindowsPath p) = normalizeWindowsPath p := by
  unfold replaceAllSlash
  rw [map_slashToBackslash_id _ (normalizeWindowsPath_slash_not_mem p)]

theorem normalizeWindowsPath_not_startsWith_backslash (p : String) :
    listStartsWith (normalizeWindowsPath p).data ['\\'] = false := by
  rw [normalizeWindowsPath_data]
  split
  · simp [listStartsWith]
  · rename_i h
    exact Bool.eq_false_iff.mpr h

theorem normalizeWindowsPath_idem (p : String) :
    normalizeWindowsPath (normalizeWindowsPath p) = normalizeWindowsPath p := by
  have h1 := replaceAllSlash_normalize_fixed p
  have h2 := normalizeWindowsPath_not_startsWith_backslash p
  generalize hq : normalizeWindowsPath p = q at h1 h2 ⊢
  unfold normalizeWindowsPath
  simp only [h1, h2, Bool.false_eq_true, if_false]

/-- Claim C2: `normalizeWindowsPath` replaces every forward slash of its
argument by a backslash and, when the replaced string begins with a
backslash, prepends the drive designator "c:"; it is a total function (a
plain Lean function, it cannot fail) whose result contains no forward slash;
and it is idempotent. -/
theorem normalizeWindowsPath_spec (p : String) :
    ((normalizeWindowsPath p).data =
       if listStartsWith (p.data.map slashToBackslash) ['\\'] = true
       then 'c' :: ':' :: p.data.map slashToBackslash
       else p.data.map slashToBackslash) ∧
    '/' ∉ (normalizeWindowsPath p).data ∧
    normalizeWindowsPath (normalizeWindowsPath p) = normalizeWindowsPath p :=
  ⟨normalizeWindowsPath_data p, normalizeWindowsPath_slash_not_mem p,
   normalizeWindowsPath_idem p⟩

/-- The request-trace shape of the mapping step: whatever the helper answers,
exactly one NewSmbGlobalMapping request is appended to the earlier trace. -/
theorem smbMountMapping_trace (env : Env) (source target : String)
    (mo so : List String) (tr : List HelperRequest) :
    (smbMountMapping env source target mo so tr).2 =
      tr ++ [HelperRequest.newSmbGlobalMapping
        ⟨normalizeWindowsPath target, replaceAllSlash (smbMountSource env source),
         mo.getD 0 "", so.getD 0 ""⟩] := by
  cases h : env.helper.newSmbGlobalMapping
      (⟨normalizeWindowsPath target, replaceAllSlash (smbMountSource env source),
        mo.getD 0 "", so.getD 0 ""⟩ : NewSmbGlobalMappingRequest) <;>
    simp only [smbMountMapping, h]

/-- Claim C3: `SMBMount` with an empty `mountOptions` or an empty
`sensitiveMountOptions` fails with the invalid-argument error and issues no
helper-service request at all (its request trace is empty). -/
theorem smbMount_empty_options (env : Env) (source target fsType : String)
    (mo so : List String) (h : mo = [] ∨ so = []) :
    SMBMount env source target fsType mo so =
      (Except.error (GoError.mk ("empty mountOptions(len: " ++ toString mo.length ++
         ") or sensitiveMountOptions(len: " ++ toString so.length ++
         ") is not allowed")), []) := by
  have hc : (mo.length == 0 || so.length == 0) = true := by
    rcases h with h | h <;> subst h <;> simp
  simp [SMBMount, hc]

/-- Witness for C3 at `mountOptions = []`. -/
theorem smbMount_empty_options_witness :
    (([] : List String) = [] ∨ (["p"] : List String) = []) ∧
    SMBMount (mkEnv helperAllOk) "//smb-server/share" "/mnt/smb" "" [] ["p"] =
      (Except.error (GoError.mk
         "empty mountOptions(len: 0) or sensitiveMountOptions(len: 1) is not allowed"), []) :=
  ⟨Or.inl rfl,
   smbMount_empty_options (mkEnv helperAllOk) "//smb-server/share" "/mnt/smb" "" [] ["p"]
     (Or.inl rfl)⟩

/-- Claim C5: `IsLikelyNotMountPoint` answers (true, ErrNotExist) when the
helper reports the path missing, (true, nil) when it exists but is not a
mount point, and (false, nil) when it exists and is a mount point. -/
theorem isLikelyNotMountPoint_cases (env : Env) (path : String) :
    (env.helper.pathExists ⟨normalizeWindowsPath path⟩ = Except.ok false →
       IsLikelyNotMountPoint env path =
         ((true, some GoError.errNotExist),
          [HelperRequest.pathExists ⟨normalizeWindowsPath path⟩])) ∧
    (∀ b, env.helper.pathExists ⟨normalizeWindowsPath path⟩ = Except.ok true →
       env.helper.isMountPoint ⟨normalizeWindowsPath path⟩ = Except.ok b →
       IsLikelyNotMountPoint env path =
         ((!b, none),
          [HelperRequest.pathExists ⟨normalizeWindowsPath path⟩,
           HelperRequest.isMountPoint ⟨normalizeWindowsPath path⟩])) := by
  constructor
  · intro h
    simp [IsLikelyNotMountPoint, ExistsPath, h]
  · intro b h1 h2
    simp [IsLikelyNotMountPoint, ExistsPath, h1, h2]

/-- Witness for C5: all three helper answers exercised on concrete
environments. -/
theorem isLikelyNotMountPoint_cases_witness :
    IsLikelyNotMountPoint (mkEnv helperNotExists) "/mnt/x" =
      ((true, some GoError.errNotExist),
       [HelperRequest.pathExists ⟨normalizeWindowsPath "/mnt/x"⟩]) ∧
    IsLikelyNotMountPoint (mkEnv helperAllOk) "/mnt/x" =
      ((true, none),
       [HelperRequest.pathExists ⟨normalizeWindowsPath "/mnt/x"⟩,
        HelperRequest.isMountPoint ⟨normalizeWindowsPath "/mnt/x"⟩]) ∧
    IsLikelyNotMountPoint (mkEnv helperMounted) "/mnt/x" =
      ((false, none),
       [HelperRequest.pathExists ⟨normalizeWindowsPath "/mnt/x"⟩,
        HelperRequest.isMountPoint ⟨normalizeWindowsPath "/mnt/x"⟩]) :=
  ⟨(isLikelyNotMountPoint_cases (mkEnv helperNotExists) "/mnt/x").1 rfl,
   (isLikelyNotMountPoint_cases (mkEnv helperAllOk) "/mnt/x").2 false rfl rfl,
   (isLikelyNotMountPoint_cases (mkEnv helperMounted) "/mnt/x").2 true rfl rfl⟩

/-- Claim C6: every unsupported capability operation returns the non-nil
"not implemented" error on every input — never a silent success. -/
theorem unsupported_ops_not_implemented :
    CSIProxyMounter.List.2 =
      some (GoError.mk "List not implemented for CSIProxyMounter") ∧
    (∀ p, (CSIProxyMounter.PathIsDevice p).2 =
      some (GoError.mk "PathIsDevice not implemented for CSIProxyMounter")) ∧
    (∀ p, (CSIProxyMounter.DeviceOpened p).2 =
      some (GoError.mk "DeviceOpened not implemented for CSIProxyMounter")) ∧
    (∀ p q, (CSIProxyMounter.GetDeviceNameFromMount p q).2 =
      some (GoError.mk "GetDeviceNameFromMount not implemented for CSIProxyMounter")) ∧
    (∀ p, CSIProxyMounter.MakeRShared p =
      some (GoError.mk "MakeRShared not implemented for CSIProxyMounter")) ∧
    (∀ p, CSIProxyMounter.MakeFile p =
      some (GoError.mk "MakeFile not implemented for CSIProxyMounter")) ∧
    (∀ p, (CSIProxyMounter.EvalHostSymlinks p).2 =
      some (GoError.mk "EvalHostSymlinks not implemented for CSIProxyMounter")) ∧
    (∀ p, (CSIProxyMounter.GetMountRefs p).2 =
      some (GoError.mk "GetMountRefs not implemented for CSIProxyMounter")) ∧
    (∀ p, (CSIProxyMounter.GetFSGroup p).2 =
      some (GoError.mk "GetFSGroup not implemented for CSIProxyMounter")) ∧
    (∀ p, (CSIProxyMounter.GetSELinuxSupport p).2 =
      some (GoError.mk "GetSELinuxSupport not implemented for CSIProxyMounter")) ∧
    (∀ p, (CSIProxyMounter.GetMode p).2 =
      some (GoError.mk "GetMode not implemented for CSIProxyMounter")) ∧
    (∀ s t ft o so, CSIProxyMounter.MountSensitive s t ft o so =
      some (GoError.mk "MountSensitive not implemented for CSIProxyMounter")) ∧
    (∀ s t ft o so, CSIProxyMounter.MountSensitiveWithoutSystemd s t ft o so =
      some (GoError.mk "MountSensitiveWithoutSystemd not implemented for CSIProxyMounter")) :=
  ⟨rfl, fun _ => rfl, fun _ => rfl, fun _ _ => rfl, fun _ => rfl, fun _ => rfl,
   fun _ => rfl, fun _ => rfl, fun _ => rfl, fun _ => rfl, fun _ => rfl,
   fun _ _ _ _ _ => rfl, fun _ _ _ _ _ => rfl⟩

/-- Claim C7: `SMBUnmount` issues exactly one helper request — a pod-scoped,
forced Rmdir of the normalized target — and in particular never a
RemoveSmbGlobalMapping request, so the node's share-mapping state is
untouched. -/
theorem smbUnmount_single_rmdir (env : Env) (target : String) :
    SMBUnmount env target =
      (env.helper.rmdir ⟨normalizeWindowsPath target, PathContext.POD, true⟩,
       [HelperRequest.rmdir ⟨normalizeWindowsPath target, PathContext.POD, true⟩]) ∧
    ∀ q : RemoveSmbGlobalMappingRequest,
      HelperRequest.removeSmbGlobalMapping q ∉ (SMBUnmount env target).2 := by
  refine ⟨rfl, ?_⟩
  intro q
  simp [SMBUnmount, Rmdir]

/-- Claim C9: `SMBMount` never reads its `fsType` argument — two calls
differing only in `fsType` issue the same requests and return the same
result. -/
theorem smbMount_fsType_irrelevant (env : Env) (source target fsType1 fsType2 : String)
    (mo so : List String) :
    SMBMount env source target fsType1 mo so = SMBMount env source target fsType2 mo so := rfl

/-- Claim C10: the generic `Unmount` and the protocol-specific `SMBUnmount`
are extensionally equal — both are exactly the pod-scoped forced `Rmdir` of
the target. -/
theorem unmount_eq_smbUnmount (env : Env) (target : String) :
    Unmount env target = SMBUnmount env target ∧
    Unmount env target = Rmdir env target :=
  ⟨rfl, rfl⟩

/-- Claim C8: with non-empty option lists, `SMBMount` first queries existence
of `filepath.Dir target`; an erroring existence check fails the call (wrapping
the error) with no Mkdir issued; a missing parent is created by one
plugin-scoped Mkdir whose error is propagated; an existing parent triggers no
Mkdir at all. -/
theorem smbMount_parent_dir_handling (env : Env) (source target fsType : String)
    (mo so : List String) (hmo : mo ≠ []) (hso : so ≠ []) :
    ((SMBMount env source target fsType mo so).2.head? =
       some (HelperRequest.pathExists ⟨normalizeWindowsPath (env.filepathDir target)⟩)) ∧
    (∀ e, env.helper.pathExists ⟨normalizeWindowsPath (env.filepathDir target)⟩ =
        Except.error e →
       SMBMount env source target fsType mo so =
         (Except.error (GoError.mk ("parent dir: " ++ env.filepathDir target ++
            " exist check failed with err: " ++ errMsg e)),
          [HelperRequest.pathExists ⟨normalizeWindowsPath (env.filepathDir target)⟩])) ∧
    (env.helper.pathExists ⟨normalizeWindowsPath (env.filepathDir target)⟩ =
        Except.ok true →
       ∀ q : MkdirRequest, HelperRequest.mkdir q ∉ (SMBMount env source target fsType mo so).2) ∧
    (env.helper.pathExists ⟨normalizeWindowsPath (env.filepathDir target)⟩ =
        Except.ok false →
       HelperRequest.mkdir ⟨normalizeWindowsPath (env.filepathDir target), PathContext.PLUGIN⟩ ∈
         (SMBMount env source target fsType mo so).2 ∧
       ∀ e, env.helper.mkdir
           ⟨normalizeWindowsPath (env.filepathDir target), PathContext.PLUGIN⟩ =
           Except.error e →
         SMBMount env source target fsType mo so =
           (Except.error (GoError.mk ("create of parent dir: " ++ env.filepathDir target ++
              " dailed with error: " ++ errMsg e)),
            [HelperRequest.pathExists ⟨normalizeWindowsPath (env.filepathDir target)⟩,
             HelperRequest.mkdir
               ⟨normalizeWindowsPath (env.filepathDir target), PathContext.PLUGIN⟩])) := by
  have hc : (mo.length == 0 || so.length == 0) = false := by
    simp only [Bool.or_eq_false_iff, beq_eq_false_iff_ne, ne_eq, List.length_eq_zero]
    exact ⟨hmo, hso⟩
  refine ⟨?_, ?_, ?_, ?_⟩
  · rcases hE : env.helper.pathExists ⟨normalizeWindowsPath (env.filepathDir target)⟩ with e | b
    · simp [SMBMount, hc, ExistsPath, hE]
    · cases b
      · rcases hM : env.helper.mkdir
            ⟨normalizeWindowsPath (env.filepathDir target), PathContext.PLUGIN⟩ with e | u
        · simp [SMBMount, hc, ExistsPath, MakeDir, hE, hM]
        · simp [SMBMount, hc, ExistsPath, MakeDir, hE, hM, smbMountMapping_trace]
      · simp [SMBMount, hc, ExistsPath, hE, smbMountMapping_trace]
  · intro e hE
    simp [SMBMount, hc, ExistsPath, hE]
  · intro hE q
    simp [SMBMount, hc, ExistsPath, hE, smbMountMapping_trace]
  · intro hE
    constructor
    · rcases hM : env.helper.mkdir
          ⟨normalizeWindowsPath (env.filepathDir target), PathContext.PLUGIN⟩ with e | u
      · simp [SMBMount, hc, ExistsPath, MakeDir, hE, hM]
      · simp [SMBMount, hc, ExistsPath, MakeDir, hE, hM, smbMountMapping_trace]
    · intro e hM
      simp [SMBMount, hc, ExistsPath, MakeDir, hE, hM]

/-- Witness for C8 at a concrete call whose parent directory exists. -/
theorem smbMount_parent_dir_handling_witness :
    (SMBMount (mkEnv helperAllOk) "//smb-server/share" "/mnt/smb" "" ["u"] ["p"]).2.head? =
      some (HelperRequest.pathExists ⟨normalizeWindowsPath "/mnt"⟩) ∧
    HelperRequest.mkdir ⟨normalizeWindowsPath "/mnt", PathContext.PLUGIN⟩ ∉
      (SMBMount (mkEnv helperAllOk) "//smb-server/share" "/mnt/smb" "" ["u"] ["p"]).2 :=
  ⟨(smbMount_parent_dir_handling (mkEnv helperAllOk) "//smb-server/share" "/mnt/smb" ""
      ["u"] ["p"] (by decide) (by decide)).1,
   (smbMount_parent_dir_handling (mkEnv helperAllOk) "//smb-server/share" "/mnt/smb" ""
      ["u"] ["p"] (by decide) (by decide)).2.2.1 rfl
     ⟨normalizeWindowsPath "/mnt", PathContext.PLUGIN⟩⟩

/-- If the helper accepts the mapping request, the mapping step succeeds. -/
theorem smbMountMapping_ok (env : Env) (source target : String) (mo so : List String)
    (tr : List HelperRequest)
    (h : env.helper.newSmbGlobalMapping
        ⟨normalizeWindowsPath target, replaceAllSlash (smbMountSource env source),
         mo.getD 0 "", so.getD 0 ""⟩ = Except.ok ()) :
    (smbMountMapping env source target mo so tr).1 = Except.ok () := by
  simp only [smbMountMapping, h]

/-- With non-empty options and an existing parent, `SMBMount` reduces to the
mapping step after the single existence check. -/
theorem smbMount_parent_exists_eq (env : Env) (source target fsType : String)
    (mo so : List String) (hmo : mo ≠ []) (hso : so ≠ [])
    (hex : env.helper.pathExists ⟨normalizeWindowsPath (env.filepathDir target)⟩ =
      Except.ok true) :
    SMBMount env source target fsType mo so =
      smbMountMapping env source target mo so
        [HelperRequest.pathExists ⟨normalizeWindowsPath (env.filepathDir target)⟩] := by
  have hc : (mo.length == 0 || so.length == 0) = false := by
    simp only [Bool.or_eq_false_iff, beq_eq_false_iff_ne, ne_eq, List.length_eq_zero]
    exact ⟨hmo, hso⟩
  simp [SMBMount, hc, ExistsPath, hex]

/-- Claim C4: when the source's host token carries the cluster-internal
suffix but resolution fails, `SMBMount` keeps the source unchanged, still
issues the mapping-create request (with the slash-converted original
source), and succeeds whenever the helper accepts that request — the
resolution failure is never surfaced as an error. -/
theorem smbMount_resolution_failure_nonfatal (env : Env) (source target fsType : String)
    (mo so : List String) (e : GoError)
    (hmo : mo ≠ []) (hso : so ≠ [])
    (hex : env.helper.pathExists ⟨normalizeWindowsPath (env.filepathDir target)⟩ =
      Except.ok true)
    (hsuf : ((fieldsFunc Split source).length != 0 &&
       hasSuffix ((fieldsFunc Split source).getD 0 "") "svc.cluster.local") = true)
    (hres : env.resolveIPAddr ((fieldsFunc Split source).getD 0 "") = Except.error e) :
    smbMountSource env source = source ∧
    (SMBMount env source target fsType mo so).2 =
      [HelperRequest.pathExists ⟨normalizeWindowsPath (env.filepathDir target)⟩,
       HelperRequest.newSmbGlobalMapping
         ⟨normalizeWindowsPath target, replaceAllSlash source,
          mo.getD 0 "", so.getD 0 ""⟩] ∧
    (env.helper.newSmbGlobalMapping
         ⟨normalizeWindowsPath target, replaceAllSlash source,
          mo.getD 0 "", so.getD 0 ""⟩ = Except.ok () →
       (SMBMount env source target fsType mo so).1 = Except.ok ()) := by
  have hsrc : smbMountSource env source = source := by
    simp only [smbMountSource, hsuf, if_pos, hres]
  have h1 := smbMount_parent_exists_eq env source target fsType mo so hmo hso hex
  refine ⟨hsrc, ?_, ?_⟩
  · rw [h1, smbMountMapping_trace, hsrc]
    rfl
  · intro hm
    rw [h1]
    exact smbMountMapping_ok env source target mo so _ (by rw [hsrc]; exact hm)

/-- Witness for C4: an unresolvable cluster-internal hostname still mounts. -/
theorem smbMount_resolution_failure_nonfatal_witness :
    smbMountSource (mkEnv helperAllOk) "//db.svc.cluster.local/share" =
      "//db.svc.cluster.local/share" ∧
    (SMBMount (mkEnv helperAllOk) "//db.svc.cluster.local/share" "/mnt/smb" "" ["u"] ["p"]).2 =
      [HelperRequest.pathExists ⟨normalizeWindowsPath "/mnt"⟩,
       HelperRequest.newSmbGlobalMapping
         ⟨normalizeWindowsPath "/mnt/smb", replaceAllSlash "//db.svc.cluster.local/share",
          "u", "p"⟩] ∧
    (SMBMount (mkEnv helperAllOk) "//db.svc.cluster.local/share" "/mnt/smb" "" ["u"] ["p"]).1 =
      Except.ok () := by
  have h := smbMount_resolution_failure_nonfatal (mkEnv helperAllOk)
    "//db.svc.cluster.local/share" "/mnt/smb" "" ["u"] ["p"]
    (GoError.mk "lookup failed") (by decide) (by decide) rfl rfl rfl
  exact ⟨h.1, h.2.1, h.2.2 rfl⟩

/-- Counterexample to claim C1 as stated: with hostname
srv.svc.cluster.local resolving to 1.2.3.4 and a source string containing
the hostname twice, the transformed source passed to the mapping-create
request still contains the original hostname — only the first occurrence was
replaced, because the source uses `strings.Replace` with count 1. -/
theorem smbMount_resolve_not_all_occurrences :
    (SMBMount envResolves "//srv.svc.cluster.local/srv.svc.cluster.local"
        "/mnt/x" "" ["u"] ["p"]).2 =
      [HelperRequest.pathExists ⟨normalizeWindowsPath "/var/lib/kubelet"⟩,
       HelperRequest.newSmbGlobalMapping
         ⟨normalizeWindowsPath "/mnt/x", "\\\\1.2.3.4\\srv.svc.cluster.local", "u", "p"⟩] ∧
    containsSub "\\\\1.2.3.4\\srv.svc.cluster.local" "srv.svc.cluster.local" = true ∧
    containsSub "1.2.3.4" "srv.svc.cluster.local" = false :=
  ⟨rfl, rfl, rfl⟩

/-- Claim C1 (amended): when the first space/slash-delimited token of the
source ends in "svc.cluster.local" and resolution succeeds with address
`ip`, the transformed source passed to the mapping-create request replaces
only the FIRST occurrence of the hostname by `ip` (`strings.Replace` with
count 1); later occurrences are left unchanged. -/
theorem smbMount_resolve_replaces_first (env : Env) (source target fsType : String)
    (mo so : List String) (ip : String)
    (hmo : mo ≠ []) (hso : so ≠ [])
    (hex : env.helper.pathExists ⟨normalizeWindowsPath (env.filepathDir target)⟩ =
      Except.ok true)
    (hsuf : ((fieldsFunc Split source).length != 0 &&
       hasSuffix ((fieldsFunc Split source).getD 0 "") "svc.cluster.local") = true)
    (hres : env.resolveIPAddr ((fieldsFunc Split source).getD 0 "") = Except.ok ip) :
    smbMountSource env source =
      replaceFirst source ((fieldsFunc Split source).getD 0 "") ip ∧
    (SMBMount env source target fsType mo so).2 =
      [HelperRequest.pathExists ⟨normalizeWindowsPath (env.filepathDir target)⟩,
       HelperRequest.newSmbGlobalMapping
         ⟨normalizeWindowsPath target,
          replaceAllSlash (replaceFirst source ((fieldsFunc Split source).getD 0 "") ip),
          mo.getD 0 "", so.getD 0 ""⟩] := by
  have hsrc : smbMountSource env source =
      replaceFirst source ((fieldsFunc Split source).getD 0 "") ip := by
    simp only [smbMountSource, hsuf, if_pos, hres]
  have h1 := smbMount_parent_exists_eq env source target fsType mo so hmo hso hex
  refine ⟨hsrc, ?_⟩
  rw [h1, smbMountMapping_trace, hsrc]
  rfl

/-- Witness for the amended C1 at a concrete resolving environment. -/
theorem smbMount_resolve_replaces_first_witness :
    smbMountSource envResolves "//fs.svc.cluster.local/data" =
      replaceFirst "//fs.svc.cluster.local/data"
        ((fieldsFunc Split "//fs.svc.cluster.local/data").getD 0 "") "1.2.3.4" ∧
    (SMBMount envResolves "//fs.svc.cluster.local/data" "/mnt/smb" "" ["u"] ["p"]).2 =
      [HelperRequest.pathExists ⟨normalizeWindowsPath "/var/lib/kubelet"⟩,
       HelperRequest.newSmbGlobalMapping
         ⟨normalizeWindowsPath "/mnt/smb",
          replaceAllSlash (replaceFirst "//fs.svc.cluster.local/data"
            ((fieldsFunc Split "//fs.svc.cluster.local/data").getD 0 "") "1.2.3.4"),
          "u", "p"⟩] :=
  smbMount_resolve_replaces_first envResolves "//fs.svc.cluster.local/data" "/mnt/smb" ""
    ["u"] ["p"] "1.2.3.4" (by decide) (by decide) rfl rfl rfl
